import Mathlib

/-!
# Verification of the observability-workshop subscription/payment core

Shallow embedding of the repository's core:

* `subscription-service/internal/models` — subscription record, plan pricing.
* `subscription-service/internal/services` — `SubscriptionRepository` (an
  in-memory `map[string]Subscription` guarded by one mutex; embedded as an
  association list with map semantics, enumeration order being unspecified)
  and the `PaymentService` HTTP client.
* `subscription-service/internal/handlers` — the V1/V2/V3 create-subscription
  workflows (provision → charge → reconcile).
* `payment-service/internal/models` and `services` — request validation, fee
  calculation, the randomized failure simulator and `PaymentProcessor`.

Modelling conventions:
* Go `float64` amounts are modelled as exact rationals (`ℚ`), reading the
  source's decimal literals exactly.
* `time.Time` instants are abstracted to `Nat`; `AddDate(1, 0, 0)` (calendar
  arithmetic) is abstracted to a fixed positive shift — no claim depends on
  the concrete length of a year.
* The mutex serializes all repository operations, so concurrent histories are
  embedded as arbitrary sequential interleavings.
* All randomness (`rand.Int`, `rand.Float64`, `rand.Intn`) is an injected
  oracle, per the spec's injectable-randomness modelling note.
-/

set_option autoImplicit false

namespace ObsWorkshop

/-- Subscription record (`subscription-service/internal/models`):
`ID`, `UserID`, `Plan`, `StartDate`, `EndDate`. -/
structure Subscription where
  ID : String
  UserID : String
  Plan : String
  StartDate : Nat
  EndDate : Nat
  deriving DecidableEq, Repr

/-- `time.Now().AddDate(1, 0, 0)`, abstracted to a fixed shift of one
365-day year in nanoseconds (calendar arithmetic is not claim-relevant). -/
def addDateOneYear (t : Nat) : Nat :=
  t + 365 * 86400 * 1000000000

/-- `models.GetPlanPrice`: basic ↦ 10.0, premium ↦ 20.0, default 0.0. -/
def GetPlanPrice (plan : String) : ℚ :=
  if plan = "basic" then 10
  else if plan = "premium" then 20
  else 0

/-- `models.IsValidPlan`: `plan == "basic" || plan == "premium"`. -/
def IsValidPlan (plan : String) : Bool :=
  plan == "basic" || plan == "premium"

/-- The Go zero value `models.Subscription{}` returned by `Update`/`Delete`
on a missing identifier. -/
def zeroSubscription : Subscription :=
  ⟨"", "", "", 0, 0⟩

/-- The repository's `map[string]Subscription`, embedded as an association
list (enumeration order is unspecified by the spec, so list order is
irrelevant; all claims are stated through `find`/`Count`). -/
abbrev Store := List (String × Subscription)

namespace Store

/-- Map lookup `m[id]`. -/
def find : Store → String → Option Subscription
  | [], _ => none
  | (k, v) :: t, id => if k = id then some v else find t id

/-- Map key removal `delete(m, id)`. -/
def eraseKey : Store → String → Store
  | [], _ => []
  | (k, v) :: t, id => if k = id then eraseKey t id else (k, v) :: eraseKey t id

/-- Map assignment `m[id] = v` (replace any entry under `id`). -/
def set (s : Store) (id : String) (v : Subscription) : Store :=
  eraseKey s id ++ [(id, v)]

/-- The generated identifier `fmt.Sprintf("sub_%d", rand.Int())`, with the
`rand.Int` draw injected as `rid`. -/
def mkSubID (rid : Nat) : String :=
  "sub_" ++ toString rid

/-- `SubscriptionRepository.Create`: allocates `ID = fmt.Sprintf("sub_%d",
rand.Int())` with the random draw `rid` injected, sets start `now` and end
one year later, and assigns into the map. -/
def Create (s : Store) (rid : Nat) (userID plan : String) (now : Nat) :
    Store × Subscription :=
  let sub : Subscription :=
    ⟨mkSubID rid, userID, plan, now, addDateOneYear now⟩
  (set s sub.ID sub, sub)

/-- `SubscriptionRepository.GetByID`: copy plus presence flag (zero value on
absence). -/
def GetByID (s : Store) (id : String) : Subscription × Bool :=
  match find s id with
  | some v => (v, true)
  | none => (zeroSubscription, false)

/-- `SubscriptionRepository.GetAll`: snapshot of the values. -/
def GetAll (s : Store) : List Subscription :=
  s.map Prod.snd

/-- `SubscriptionRepository.Update`: if present, replace `UserID` and `Plan`
and write back; if absent, return the zero value and `false`. -/
def Update (s : Store) (id userID plan : String) :
    Store × Subscription × Bool :=
  match find s id with
  | none => (s, zeroSubscription, false)
  | some sub =>
    let sub' := { sub with UserID := userID, Plan := plan }
    (set s id sub', sub', true)

/-- `SubscriptionRepository.Delete`: remove and return the prior value, or
not-found. -/
def Delete (s : Store) (id : String) : Store × Subscription × Bool :=
  match find s id with
  | none => (s, zeroSubscription, false)
  | some sub => (eraseKey s id, sub, true)

/-- `SubscriptionRepository.Count`: current cardinality (`len(m)`). -/
def Count (s : Store) : Nat :=
  s.length

/-- Well-formedness: no two entries under the same key (automatic for a Go
map; an invariant of this association-list embedding). -/
def wf (s : Store) : Prop :=
  (s.map Prod.fst).Nodup

instance (s : Store) : Decidable (wf s) := by
  unfold wf; infer_instance

end Store

/-! ## Payment-service models (`payment-service/internal/models`) -/

/-- Payment request as decoded by the payment service (five fields; the
subscription service marshals only the first three, so its requests arrive
with `Currency = ""` and `Method = ""`). -/
structure PaymentRequest where
  SubscriptionID : String
  Amount : ℚ
  Plan : String
  Currency : String
  Method : String
  deriving DecidableEq, Repr

/-- Payment response produced by the payment processor. -/
structure PaymentResponse where
  ID : String
  Status : String
  Amount : ℚ
  Currency : String
  ProcessedAt : Nat
  Fees : ℚ
  deriving DecidableEq, Repr

/-- `models.PaymentError` (`Code`, `Message`, `Type`; the Go field `Type` is
spelled `Type'` here). -/
structure PaymentError where
  Code : String
  Message : String
  Type' : String
  deriving DecidableEq, Repr

def StatusCompleted : String := "completed"
def StatusFailed : String := "failed"
def StatusPending : String := "pending"
def StatusCancelled : String := "cancelled"

def ErrorTypeInsufficientFunds : String := "insufficient_funds"
def ErrorTypeInvalidCard : String := "invalid_card"
def ErrorTypeNetworkError : String := "network_error"
def ErrorTypeProcessingError : String := "processing_error"
def ErrorTypeTimeout : String := "timeout"

/-- `models.ValidatePaymentRequest`: `none` plays Go's `nil` error. -/
def ValidatePaymentRequest (req : PaymentRequest) : Option PaymentError :=
  if req.SubscriptionID = "" then
    some ⟨"MISSING_SUBSCRIPTION_ID", "subscription ID is required", "validation_error"⟩
  else if req.Amount ≤ 0 then
    some ⟨"INVALID_AMOUNT", "amount must be greater than 0", "validation_error"⟩
  else if req.Plan = "" then
    some ⟨"MISSING_PLAN", "plan is required", "validation_error"⟩
  else
    none

/-- `models.CalculateFees`: base rate 0.029, premium 0.025, enterprise 0.02,
fee floored at 0.30 (decimal literals read as exact rationals). -/
def CalculateFees (amount : ℚ) (plan : String) : ℚ :=
  let baseRate : ℚ :=
    if plan = "premium" then 25 / 1000
    else if plan = "enterprise" then 2 / 100
    else 29 / 1000
  let fee := amount * baseRate
  if fee < 3 / 10 then 3 / 10 else fee

/-- `models.ShouldSimulateFailure`: `rand.Float64() < failureRate`, with the
draw `roll` injected. -/
def ShouldSimulateFailure (roll failureRate : ℚ) : Bool :=
  decide (roll < failureRate)

/-- The five simulated failures of `models.GetRandomFailureType`. -/
def failureTable : List PaymentError :=
  [⟨"INSUFFICIENT_FUNDS", "insufficient funds in account", ErrorTypeInsufficientFunds⟩,
   ⟨"INVALID_CARD", "invalid or expired card", ErrorTypeInvalidCard⟩,
   ⟨"NETWORK_ERROR", "network connection failed", ErrorTypeNetworkError⟩,
   ⟨"PROCESSING_ERROR", "payment processor temporarily unavailable", ErrorTypeProcessingError⟩,
   ⟨"TIMEOUT", "payment processing timeout", ErrorTypeTimeout⟩]

/-- `models.GetRandomFailureType`: `failures[rand.Intn(len(failures))]`, with
the draw injected as `idx : Fin 5`. -/
def GetRandomFailureType (idx : Fin 5) : PaymentError :=
  failureTable.get (Fin.cast (by rfl) idx)

/-! ## Payment processor (`payment-service/internal/services`) -/

/-- The configuration fields of `config.Config` that
`PaymentProcessor.ProcessPayment` reads. -/
structure ProcessorConfig where
  ProcessingDelay : Nat
  EnableFailures : Bool
  FailureRate : ℚ
  deriving DecidableEq, Repr

/-- The injected randomness and clock consumed by one
`PaymentProcessor.ProcessPayment` call: the failure roll (`rand.Float64`),
the failure-type index (`rand.Intn(5)`), the generated payment identifier
(`models.GeneratePaymentID`) and the `time.Now` instant. -/
structure ProcessorRandom where
  failRoll : ℚ
  failIdx : Fin 5
  paymentID : String
  now : Nat
  deriving DecidableEq, Repr

/-- Result of one `PaymentProcessor.ProcessPayment` call: the returned
`(*PaymentResponse, error)` pair, instrumented with whether the configured
processing delay was slept and whether a probabilistic failure draw was
performed (both happen strictly after validation in the source). -/
structure ProcessorResult where
  response : Option PaymentResponse
  err : Option PaymentError
  sleptProcessingDelay : Bool
  drewFailure : Bool
  deriving DecidableEq, Repr

namespace PaymentProcessor

/-- `PaymentProcessor.getCurrency`: the request's currency, defaulting to
`"USD"`. -/
def getCurrency (req : PaymentRequest) : String :=
  if req.Currency ≠ "" then req.Currency else "USD"

/-- `PaymentProcessor.ProcessPayment`: validate (return early on a validation
error, before the delay and before any failure draw); sleep the configured
delay; if failures are enabled and the roll selects one, return a `failed`
response (fees left at the zero value) together with the failure error;
otherwise return a `completed` response with computed fees and `nil` error. -/
def ProcessPayment (cfg : ProcessorConfig) (rnd : ProcessorRandom)
    (req : PaymentRequest) : ProcessorResult :=
  match ValidatePaymentRequest req with
  | some e => ⟨none, some e, false, false⟩
  | none =>
    let slept := decide (0 < cfg.ProcessingDelay)
    if cfg.EnableFailures && ShouldSimulateFailure rnd.failRoll cfg.FailureRate then
      let failure := GetRandomFailureType rnd.failIdx
      ⟨some ⟨rnd.paymentID, StatusFailed, req.Amount, getCurrency req, rnd.now, 0⟩,
       some failure, slept, true⟩
    else
      ⟨some ⟨rnd.paymentID, StatusCompleted, req.Amount, getCurrency req, rnd.now,
        CalculateFees req.Amount req.Plan⟩,
       none, slept, cfg.EnableFailures⟩

end PaymentProcessor

/-! ## Subscription-service payment client (`services.PaymentService`) -/

/-- The payment response type the subscription service decodes
(`subscription-service/internal/models.PaymentResponse`). -/
structure ClientPaymentResponse where
  ID : String
  Status : String
  Message : String
  deriving DecidableEq, Repr

/-- The request context handed to `PaymentService.ProcessPayment`
(`ctx.Done`/deadline abstracted to one flag: whether the caller-supplied
deadline has elapsed or the cancellation signal has fired). -/
structure ReqContext where
  expired : Bool
  deriving DecidableEq, Repr

/-- The wire behaviour of one `http.Client.Do` round trip once it is allowed
to proceed: either a transport error or a status code with the decoded body. -/
abbrev Transport := PaymentRequest → Except String (Nat × ClientPaymentResponse)

/-- Modelled from the spec: the deadline handling of Go's `net/http`
`Client.Do` (outside this repository). Per the spec, "the request context
carries cancellation/deadline; the client must respect it (abort the call and
surface a timeout-flavored error if the deadline elapses)": an expired
context aborts the round trip with `context deadline exceeded`, otherwise the
transport's outcome stands. -/
def clientDo (ctx : ReqContext) (transport : Transport) (req : PaymentRequest) :
    Except String (Nat × ClientPaymentResponse) :=
  if ctx.expired then Except.error "context deadline exceeded"
  else transport req

namespace PaymentService

/-- `PaymentService.ProcessPayment`: marshal the request (cannot fail for
this struct), perform the round trip with the request context, wrap a
transport error as `failed to send payment request: …`, reject a non-200
status as `payment failed with status: …`, otherwise return the decoded
body. -/
def ProcessPayment (ctx : ReqContext) (transport : Transport)
    (req : PaymentRequest) : Except String ClientPaymentResponse :=
  match clientDo ctx transport req with
  | Except.error e => Except.error ("failed to send payment request: " ++ e)
  | Except.ok (status, body) =>
    if status ≠ 200 then
      Except.error ("payment failed with status: " ++ toString status)
    else
      Except.ok body

end PaymentService

/-! ## Create-subscription workflows
(`handlers.V1Handler/V2Handler/V3Handler.createSubscription`)

The handlers are embedded from the point where the request body has been
decoded into `{user_id, plan}` (JSON shape handling is the HTTP layer's
concern). The payment dependency is the abstract collaborator
`pay : PaymentRequest → Except String ClientPaymentResponse` — instantiated
with `PaymentService.ProcessPayment ctx transport` for the deployed wiring.
-/

/-- Outcome of one create-subscription workflow run: the store afterwards,
the HTTP status written, the encoded body on success, the payment request
sent to the collaborator (if the charge step was reached), and how many times
the workflow called `Repository.Delete` (the compensating-delete counter). -/
structure CreateOutcome where
  store : Store
  status : Nat
  body : Option Subscription
  sent : Option PaymentRequest
  deleteAttempts : Nat
  deriving Repr

/-- `V2Handler.createSubscription`: validate fields and plan; provision via
`Repository.Create`; charge `GetPlanPrice` for the plan; on payment error run
the compensating `Repository.Delete` and answer 500; on success answer 200
with the record. -/
def createSubscriptionV2 (pay : PaymentRequest → Except String ClientPaymentResponse)
    (s : Store) (userID plan : String) (rid : Nat) (now : Nat) : CreateOutcome :=
  if userID == "" || plan == "" then ⟨s, 400, none, none, 0⟩
  else if !IsValidPlan plan then ⟨s, 400, none, none, 0⟩
  else
    let created := Store.Create s rid userID plan now
    let s1 := created.1
    let sub := created.2
    let paymentReq : PaymentRequest := ⟨sub.ID, GetPlanPrice sub.Plan, sub.Plan, "", ""⟩
    match pay paymentReq with
    | Except.error _ =>
      let deleted := Store.Delete s1 sub.ID
      ⟨deleted.1, 500, none, some paymentReq, 1⟩
    | Except.ok _ => ⟨s1, 200, some sub, some paymentReq, 0⟩

/-- `V3Handler.createSubscription`: identical provision/charge/reconcile core
to V2 (the tracing wrapper passes the payment error through unchanged). -/
def createSubscriptionV3 (pay : PaymentRequest → Except String ClientPaymentResponse)
    (s : Store) (userID plan : String) (rid : Nat) (now : Nat) : CreateOutcome :=
  if userID == "" || plan == "" then ⟨s, 400, none, none, 0⟩
  else if !IsValidPlan plan then ⟨s, 400, none, none, 0⟩
  else
    let created := Store.Create s rid userID plan now
    let s1 := created.1
    let sub := created.2
    let paymentReq : PaymentRequest := ⟨sub.ID, GetPlanPrice sub.Plan, sub.Plan, "", ""⟩
    match pay paymentReq with
    | Except.error _ =>
      let deleted := Store.Delete s1 sub.ID
      ⟨deleted.1, 500, none, some paymentReq, 1⟩
    | Except.ok _ => ⟨s1, 200, some sub, some paymentReq, 0⟩

/-- `V1Handler.createSubscription`: same validate/provision/charge steps, but
the payment-error branch only answers 500 — it performs no
`Repository.Delete` on the provisioned record. -/
def createSubscriptionV1 (pay : PaymentRequest → Except String ClientPaymentResponse)
    (s : Store) (userID plan : String) (rid : Nat) (now : Nat) : CreateOutcome :=
  if userID == "" || plan == "" then ⟨s, 400, none, none, 0⟩
  else if !IsValidPlan plan then ⟨s, 400, none, none, 0⟩
  else
    let created := Store.Create s rid userID plan now
    let s1 := created.1
    let sub := created.2
    let paymentReq : PaymentRequest := ⟨sub.ID, GetPlanPrice sub.Plan, sub.Plan, "", ""⟩
    match pay paymentReq with
    | Except.error _ => ⟨s1, 500, none, some paymentReq, 0⟩
    | Except.ok _ => ⟨s1, 200, some sub, some paymentReq, 0⟩

/-! ## Auxiliary definitions for the claims -/

/-- The fee rate `r(p)` exactly as the spec words it (2.9% default, 2.5% for
"premium", 2.0% for "enterprise") — the spec-side reference formula the
source's `CalculateFees` is compared against. -/
def specFeeRate (plan : String) : ℚ :=
  if plan = "premium" then 25 / 1000
  else if plan = "enterprise" then 2 / 100
  else 29 / 1000

/-- A payment collaborator that always fails — the client-visible outcome
when the payment service answers every charge with a non-200 status (e.g. an
`insufficient_funds` simulated failure, which `handlePaymentError` maps to
status 400, surfaced by `PaymentService.ProcessPayment` as a status error). -/
def payAlwaysFails : PaymentRequest → Except String ClientPaymentResponse :=
  fun _ => Except.error "payment failed with status: 400"

/-- A payment collaborator that always succeeds with a completed response. -/
def payAlwaysSucceeds : PaymentRequest → Except String ClientPaymentResponse :=
  fun _ => Except.ok ⟨"pmt_1", "completed", ""⟩

/-- A wire transport whose round trips all succeed with a 200 response
(used to show that an expired context aborts regardless of the wire). -/
def okTransport : Transport :=
  fun _ => Except.ok (200, ⟨"pmt_1", "completed", ""⟩)

/-- A finite history of `SubscriptionRepository.Create` calls, applied in
order (the repository mutex serializes concurrent calls, so every concurrent
history executes as some such sequence). Each call carries its injected
`rand.Int` draw, the user, the plan and the `time.Now` instant. -/
def applyCreates (s : Store) : List (Nat × String × String × Nat) → Store
  | [] => s
  | c :: rest => applyCreates (Store.Create s c.1 c.2.1 c.2.2.1 c.2.2.2).1 rest

/-! ## Store lemmas -/

namespace Store

theorem find_append_of_none {s : Store} {id : String} (t : Store)
    (h : find s id = none) : find (s ++ t) id = find t id := by
  induction s with
  | nil => simp
  | cons e rest ih =>
    obtain ⟨k, v⟩ := e
    by_cases hk : k = id
    · simp [find, hk] at h
    · simpa [find, hk] using ih (by simpa [find, hk] using h)

theorem find_append_of_some {s : Store} {id : String} {v : Subscription}
    (t : Store) (h : find s id = some v) : find (s ++ t) id = some v := by
  induction s with
  | nil => simp [find] at h
  | cons e rest ih =>
    obtain ⟨k, w⟩ := e
    by_cases hk : k = id
    · simp [find, hk] at h ⊢; exact h
    · simpa [find, hk] using ih (by simpa [find, hk] using h)

theorem find_eraseKey_self (s : Store) (id : String) :
    find (eraseKey s id) id = none := by
  induction s with
  | nil => rfl
  | cons e rest ih =>
    obtain ⟨k, v⟩ := e
    by_cases hk : k = id
    · simpa [eraseKey, hk] using ih
    · simpa [eraseKey, hk, find] using ih

theorem find_eraseKey_ne {k id : String} (s : Store) (h : k ≠ id) :
    find (eraseKey s id) k = find s k := by
  induction s with
  | nil => rfl
  | cons e rest ih =>
    obtain ⟨k', v⟩ := e
    by_cases hk : k' = id
    · have hne : k' ≠ k := by rw [hk]; exact Ne.symm h
      simp [eraseKey, hk, find, hne, Ne.symm h, ih]
    · by_cases hkk : k' = k
      · subst hkk
        simp [eraseKey, hk, find]
      · simp [eraseKey, hk, find, hkk, ih]

theorem eraseKey_of_find_none {s : Store} {id : String}
    (h : find s id = none) : eraseKey s id = s := by
  induction s with
  | nil => rfl
  | cons e rest ih =>
    obtain ⟨k, v⟩ := e
    by_cases hk : k = id
    · simp [find, hk] at h
    · simp only [find, if_neg hk] at h
      simp [eraseKey, hk, ih h]

theorem find_set_self (s : Store) (id : String) (v : Subscription) :
    find (set s id v) id = some v := by
  rw [set, find_append_of_none _ (find_eraseKey_self s id)]
  simp [find]

theorem find_set_ne {k id : String} (s : Store) (v : Subscription)
    (h : k ≠ id) : find (set s id v) k = find s k := by
  rw [set]
  rcases hf : find (eraseKey s id) k with _ | w
  · rw [find_append_of_none _ hf]
    rw [find_eraseKey_ne s h] at hf
    simp [find, Ne.symm h, hf]
  · rw [find_append_of_some _ hf]
    rw [find_eraseKey_ne s h] at hf
    exact hf.symm

theorem count_set_of_find_none {s : Store} {id : String} (v : Subscription)
    (h : find s id = none) : Count (set s id v) = Count s + 1 := by
  rw [set, eraseKey_of_find_none h]
  simp [Count]

theorem keys_eraseKey_sublist (s : Store) (id : String) :
    ((eraseKey s id).map Prod.fst).Sublist (s.map Prod.fst) := by
  induction s with
  | nil => simp [eraseKey]
  | cons e rest ih =>
    obtain ⟨k, v⟩ := e
    by_cases hk : k = id
    · simpa [eraseKey, hk] using ih.cons k
    · simpa [eraseKey, hk] using ih.cons₂ k

theorem not_mem_keys_eraseKey (s : Store) (id : String) :
    id ∉ (eraseKey s id).map Prod.fst := by
  induction s with
  | nil => simp [eraseKey]
  | cons e rest ih =>
    obtain ⟨k, v⟩ := e
    by_cases hk : k = id
    · simpa [eraseKey, hk] using ih
    · intro hmem
      simp only [eraseKey, if_neg hk, List.map_cons] at hmem
      rcases List.mem_cons.mp hmem with hh | hh
      · exact hk hh.symm
      · exact ih hh

theorem wf_eraseKey {s : Store} (id : String) (h : wf s) :
    wf (eraseKey s id) :=
  (keys_eraseKey_sublist s id).nodup h

theorem wf_set {s : Store} (id : String) (v : Subscription) (h : wf s) :
    wf (set s id v) := by
  unfold wf set
  rw [List.map_append]
  refine List.Nodup.append (wf_eraseKey id h) (List.nodup_singleton id) ?_
  intro a ha hb
  simp only [List.map_cons, List.map_nil, List.mem_singleton] at hb
  exact not_mem_keys_eraseKey s id (hb ▸ ha)

theorem eraseKey_append (a b : Store) (i : String) :
    eraseKey (a ++ b) i = eraseKey a i ++ eraseKey b i := by
  induction a with
  | nil => rfl
  | cons e rest ih =>
    obtain ⟨k, v⟩ := e
    by_cases hk : k = i <;> simp [eraseKey, hk, ih]

theorem eraseKey_idem (s : Store) (i : String) :
    eraseKey (eraseKey s i) i = eraseKey s i :=
  eraseKey_of_find_none (find_eraseKey_self s i)

theorem eraseKey_set (s : Store) (i : String) (v : Subscription) :
    eraseKey (set s i v) i = eraseKey s i := by
  rw [set, eraseKey_append, eraseKey_idem]
  simp [eraseKey]

end Store

theorem isValidPlan_cases {p : String} (h : IsValidPlan p = true) :
    p = "basic" ∨ p = "premium" := by
  simpa [IsValidPlan] using h

theorem isValidPlan_ne_empty {p : String} (h : IsValidPlan p = true) :
    p ≠ "" := by
  rcases isValidPlan_cases h with hp | hp <;> simp [hp]

/-! ### Evaluation of the create workflows on valid input -/

theorem createV2_error_run (pay : PaymentRequest → Except String ClientPaymentResponse)
    (s : Store) (u p : String) (rid now : Nat) (e : String)
    (hu : u ≠ "") (hp : IsValidPlan p = true)
    (hpay : pay ⟨Store.mkSubID rid, GetPlanPrice p, p, "", ""⟩ = Except.error e) :
    createSubscriptionV2 pay s u p rid now =
      ⟨Store.eraseKey (Store.set s (Store.mkSubID rid)
          ⟨Store.mkSubID rid, u, p, now, addDateOneYear now⟩) (Store.mkSubID rid),
       500, none, some ⟨Store.mkSubID rid, GetPlanPrice p, p, "", ""⟩, 1⟩ := by
  have h1 : (u == "") = false := beq_eq_false_iff_ne.mpr hu
  have h2 : (p == "") = false := beq_eq_false_iff_ne.mpr (isValidPlan_ne_empty hp)
  simp [createSubscriptionV2, h1, h2, hp, Store.Create, hpay, Store.Delete,
    Store.find_set_self]

theorem createV3_error_run (pay : PaymentRequest → Except String ClientPaymentResponse)
    (s : Store) (u p : String) (rid now : Nat) (e : String)
    (hu : u ≠ "") (hp : IsValidPlan p = true)
    (hpay : pay ⟨Store.mkSubID rid, GetPlanPrice p, p, "", ""⟩ = Except.error e) :
    createSubscriptionV3 pay s u p rid now =
      ⟨Store.eraseKey (Store.set s (Store.mkSubID rid)
          ⟨Store.mkSubID rid, u, p, now, addDateOneYear now⟩) (Store.mkSubID rid),
       500, none, some ⟨Store.mkSubID rid, GetPlanPrice p, p, "", ""⟩, 1⟩ := by
  have h1 : (u == "") = false := beq_eq_false_iff_ne.mpr hu
  have h2 : (p == "") = false := beq_eq_false_iff_ne.mpr (isValidPlan_ne_empty hp)
  simp [createSubscriptionV3, h1, h2, hp, Store.Create, hpay, Store.Delete,
    Store.find_set_self]

theorem createV1_error_run (pay : PaymentRequest → Except String ClientPaymentResponse)
    (s : Store) (u p : String) (rid now : Nat) (e : String)
    (hu : u ≠ "") (hp : IsValidPlan p = true)
    (hpay : pay ⟨Store.mkSubID rid, GetPlanPrice p, p, "", ""⟩ = Except.error e) :
    createSubscriptionV1 pay s u p rid now =
      ⟨Store.set s (Store.mkSubID rid)
          ⟨Store.mkSubID rid, u, p, now, addDateOneYear now⟩,
       500, none, some ⟨Store.mkSubID rid, GetPlanPrice p, p, "", ""⟩, 0⟩ := by
  have h1 : (u == "") = false := beq_eq_false_iff_ne.mpr hu
  have h2 : (p == "") = false := beq_eq_false_iff_ne.mpr (isValidPlan_ne_empty hp)
  simp [createSubscriptionV1, h1, h2, hp, Store.Create, hpay]

theorem createV2_ok_run (pay : PaymentRequest → Except String ClientPaymentResponse)
    (s : Store) (u p : String) (rid now : Nat) (resp : ClientPaymentResponse)
    (hu : u ≠ "") (hp : IsValidPlan p = true)
    (hpay : pay ⟨Store.mkSubID rid, GetPlanPrice p, p, "", ""⟩ = Except.ok resp) :
    createSubscriptionV2 pay s u p rid now =
      ⟨Store.set s (Store.mkSubID rid)
          ⟨Store.mkSubID rid, u, p, now, addDateOneYear now⟩,
       200, some ⟨Store.mkSubID rid, u, p, now, addDateOneYear now⟩,
       some ⟨Store.mkSubID rid, GetPlanPrice p, p, "", ""⟩, 0⟩ := by
  have h1 : (u == "") = false := beq_eq_false_iff_ne.mpr hu
  have h2 : (p == "") = false := beq_eq_false_iff_ne.mpr (isValidPlan_ne_empty hp)
  simp [createSubscriptionV2, h1, h2, hp, Store.Create, hpay]

/-! ## Claims -/

/-- C7: for every record present in the store under identifier `id`,
`Update(id, newUser, newPlan)` reports found, changes only that record's
user and plan fields to the given values, leaves its identifier, start
timestamp and end timestamp unchanged, and leaves every other record in the
store unchanged. -/
theorem C7_update_changes_only_user_and_plan (s : Store) (id userID plan : String)
    (sub : Subscription) (h : Store.find s id = some sub) :
    (Store.Update s id userID plan).2.2 = true ∧
    (Store.Update s id userID plan).2.1 = { sub with UserID := userID, Plan := plan } ∧
    (Store.Update s id userID plan).2.1.ID = sub.ID ∧
    (Store.Update s id userID plan).2.1.StartDate = sub.StartDate ∧
    (Store.Update s id userID plan).2.1.EndDate = sub.EndDate ∧
    Store.find (Store.Update s id userID plan).1 id =
      some { sub with UserID := userID, Plan := plan } ∧
    ∀ k, k ≠ id → Store.find (Store.Update s id userID plan).1 k = Store.find s k := by
  unfold Store.Update
  rw [h]
  refine ⟨rfl, rfl, rfl, rfl, rfl, ?_, ?_⟩
  · exact Store.find_set_self s id _
  · intro k hk
    exact Store.find_set_ne s _ hk

/-- Witness for C7 at a one-record store. -/
theorem C7_witness :
    Store.find [("sub_9", (⟨"sub_9", "u1", "basic", 5, 6⟩ : Subscription))] "sub_9" =
      some ⟨"sub_9", "u1", "basic", 5, 6⟩ ∧
    (Store.Update [("sub_9", ⟨"sub_9", "u1", "basic", 5, 6⟩)] "sub_9" "u2" "premium").2.1 =
      ⟨"sub_9", "u2", "premium", 5, 6⟩ ∧
    Store.find
      (Store.Update [("sub_9", ⟨"sub_9", "u1", "basic", 5, 6⟩)] "sub_9" "u2" "premium").1
      "other" =
      Store.find [("sub_9", ⟨"sub_9", "u1", "basic", 5, 6⟩)] "other" :=
  ⟨rfl,
   (C7_update_changes_only_user_and_plan [("sub_9", ⟨"sub_9", "u1", "basic", 5, 6⟩)]
     "sub_9" "u2" "premium" ⟨"sub_9", "u1", "basic", 5, 6⟩ rfl).2.1,
   (C7_update_changes_only_user_and_plan [("sub_9", ⟨"sub_9", "u1", "basic", 5, 6⟩)]
     "sub_9" "u2" "premium" ⟨"sub_9", "u1", "basic", 5, 6⟩ rfl).2.2.2.2.2.2
     "other" (by decide)⟩

/-- C8: for every identifier present in the store, the first `Delete`
returns the prior record with found=true and removes it; the second `Delete`
returns found=false with the zero value and leaves the store unchanged. -/
theorem C8_delete_twice (s : Store) (id : String) (sub : Subscription)
    (h : Store.find s id = some sub) :
    Store.Delete s id = (Store.eraseKey s id, sub, true) ∧
    Store.find (Store.eraseKey s id) id = none ∧
    Store.Delete (Store.eraseKey s id) id =
      (Store.eraseKey s id, zeroSubscription, false) := by
  refine ⟨?_, Store.find_eraseKey_self s id, ?_⟩
  · unfold Store.Delete
    rw [h]
  · unfold Store.Delete
    rw [Store.find_eraseKey_self]

/-- Witness for C8 at a one-record store. -/
theorem C8_witness :
    Store.find [("sub_9", (⟨"sub_9", "u1", "basic", 5, 6⟩ : Subscription))] "sub_9" =
      some ⟨"sub_9", "u1", "basic", 5, 6⟩ ∧
    Store.Delete [("sub_9", (⟨"sub_9", "u1", "basic", 5, 6⟩ : Subscription))] "sub_9" =
      (Store.eraseKey [("sub_9", ⟨"sub_9", "u1", "basic", 5, 6⟩)] "sub_9",
       ⟨"sub_9", "u1", "basic", 5, 6⟩, true) :=
  ⟨rfl, (C8_delete_twice [("sub_9", ⟨"sub_9", "u1", "basic", 5, 6⟩)] "sub_9"
    ⟨"sub_9", "u1", "basic", 5, 6⟩ rfl).1⟩

/-- C9: for every identifier absent from the store, `Update` returns
found=false with the zero-value placeholder record and leaves the store
entirely unchanged. -/
theorem C9_update_absent (s : Store) (id userID plan : String)
    (h : Store.find s id = none) :
    Store.Update s id userID plan = (s, zeroSubscription, false) := by
  unfold Store.Update
  rw [h]

/-- Witness for C9 at a one-record store and a missing identifier. -/
theorem C9_witness :
    Store.find [("sub_9", (⟨"sub_9", "u1", "basic", 5, 6⟩ : Subscription))] "sub_7" = none ∧
    Store.Update [("sub_9", (⟨"sub_9", "u1", "basic", 5, 6⟩ : Subscription))] "sub_7" "u2" "premium" =
      ([("sub_9", ⟨"sub_9", "u1", "basic", 5, 6⟩)], zeroSubscription, false) :=
  ⟨rfl, C9_update_absent [("sub_9", ⟨"sub_9", "u1", "basic", 5, 6⟩)]
    "sub_7" "u2" "premium" rfl⟩

/-- C5: for every amount `a > 0` and plan `p`, the computed fee equals
`a * r(p)` for the spec's rate `r` (2.9% default, 2.5% premium,
2.0% enterprise), except that whenever `a * r(p) < 0.30` the fee equals
exactly 0.30. -/
theorem C5_fee_floor (a : ℚ) (p : String) (_h : 0 < a) :
    (a * specFeeRate p < 3 / 10 → CalculateFees a p = 3 / 10) ∧
    (¬a * specFeeRate p < 3 / 10 → CalculateFees a p = a * specFeeRate p) := by
  refine ⟨fun hc => ?_, fun hc => ?_⟩ <;>
    simp only [CalculateFees, specFeeRate] at hc ⊢
  · rw [if_pos hc]
  · rw [if_neg hc]

/-- Witness for C5: amount 1 on plan "basic" hits the fee floor. -/
theorem C5_witness :
    (0 : ℚ) < 1 ∧ (1 : ℚ) * specFeeRate "basic" < 3 / 10 ∧
    CalculateFees 1 "basic" = 3 / 10 := by
  have hrate : specFeeRate "basic" = 29 / 1000 := by simp [specFeeRate]
  have hlt : (1 : ℚ) * specFeeRate "basic" < 3 / 10 := by
    rw [hrate]; norm_num
  exact ⟨by norm_num, hlt, (C5_fee_floor 1 "basic" (by norm_num)).1 hlt⟩

/-- Helper: an invalid payment request is rejected by
`ValidatePaymentRequest` with a `validation_error`-kind error. -/
theorem validate_rejects {req : PaymentRequest}
    (h : req.SubscriptionID = "" ∨ req.Amount ≤ 0 ∨ req.Plan = "") :
    ∃ e, ValidatePaymentRequest req = some e ∧ e.Type' = "validation_error" := by
  unfold ValidatePaymentRequest
  by_cases h1 : req.SubscriptionID = ""
  · exact ⟨⟨"MISSING_SUBSCRIPTION_ID", "subscription ID is required", "validation_error"⟩,
      by simp [h1], rfl⟩
  · by_cases h2 : req.Amount ≤ 0
    · exact ⟨⟨"INVALID_AMOUNT", "amount must be greater than 0", "validation_error"⟩,
        by simp [h1, h2], rfl⟩
    · by_cases h3 : req.Plan = ""
      · exact ⟨⟨"MISSING_PLAN", "plan is required", "validation_error"⟩,
          by simp [h1, h2, h3], rfl⟩
      · rcases h with h | h | h <;> contradiction

/-- C6: a payment request with an empty subscription id, a non-positive
amount or an empty plan makes `ProcessPayment` return a
`validation_error`-kind error with no payment response, with no processing
delay incurred and no probabilistic failure draw performed. -/
theorem C6_validation_before_network (cfg : ProcessorConfig)
    (rnd : ProcessorRandom) (req : PaymentRequest)
    (h : req.SubscriptionID = "" ∨ req.Amount ≤ 0 ∨ req.Plan = "") :
    ∃ e, PaymentProcessor.ProcessPayment cfg rnd req =
        { response := none, err := some e,
          sleptProcessingDelay := false, drewFailure := false } ∧
      e.Type' = "validation_error" := by
  obtain ⟨e, he, ht⟩ := validate_rejects h
  refine ⟨e, ?_, ht⟩
  unfold PaymentProcessor.ProcessPayment
  rw [he]

/-- Witness for C6 at a request with an empty subscription id. -/
theorem C6_witness :
    (("" : String) = "" ∨ (10 : ℚ) ≤ 0 ∨ ("basic" : String) = "") ∧
    ∃ e, PaymentProcessor.ProcessPayment ⟨100, true, 1 / 10⟩ ⟨0, 0, "pmt_1", 7⟩
        (⟨"", 10, "basic", "", ""⟩ : PaymentRequest) =
        { response := none, err := some e,
          sleptProcessingDelay := false, drewFailure := false } ∧
      e.Type' = "validation_error" :=
  ⟨Or.inl rfl,
   C6_validation_before_network ⟨100, true, 1 / 10⟩ ⟨0, 0, "pmt_1", 7⟩
     ⟨"", 10, "basic", "", ""⟩ (Or.inl rfl)⟩

/-- C10: a validated request selected for a simulated failure yields a
non-nil response together with the non-nil error: the response carries status
"failed", the request's amount, the freshly generated payment identifier and
zero fees, while the error is one of the five simulated failure kinds. -/
theorem C10_failure_returns_response_and_error (cfg : ProcessorConfig)
    (rnd : ProcessorRandom) (req : PaymentRequest)
    (hv : ValidatePaymentRequest req = none)
    (hen : cfg.EnableFailures = true)
    (hroll : rnd.failRoll < cfg.FailureRate) :
    PaymentProcessor.ProcessPayment cfg rnd req =
      { response := some ⟨rnd.paymentID, StatusFailed, req.Amount,
          PaymentProcessor.getCurrency req, rnd.now, 0⟩,
        err := some (GetRandomFailureType rnd.failIdx),
        sleptProcessingDelay := decide (0 < cfg.ProcessingDelay),
        drewFailure := true } ∧
    GetRandomFailureType rnd.failIdx ∈ failureTable := by
  constructor
  · unfold PaymentProcessor.ProcessPayment
    rw [hv]
    simp [ShouldSimulateFailure, hen, hroll]
  · unfold GetRandomFailureType
    exact List.get_mem _ _ _

/-- Witness for C10: failure rate 1/2, roll 1/4 selects failure index 2
(network error). -/
theorem C10_witness :
    ValidatePaymentRequest (⟨"sub_1", 10, "basic", "", ""⟩ : PaymentRequest) = none ∧
    (1 / 4 : ℚ) < 1 / 2 ∧
    (PaymentProcessor.ProcessPayment ⟨0, true, 1 / 2⟩ ⟨1 / 4, 2, "pmt_9", 11⟩
        ⟨"sub_1", 10, "basic", "", ""⟩ =
      { response := some ⟨"pmt_9", StatusFailed,
          (⟨"sub_1", 10, "basic", "", ""⟩ : PaymentRequest).Amount,
          PaymentProcessor.getCurrency ⟨"sub_1", 10, "basic", "", ""⟩, 11, 0⟩,
        err := some (GetRandomFailureType 2),
        sleptProcessingDelay := decide (0 < (0 : Nat)),
        drewFailure := true } ∧
      GetRandomFailureType 2 ∈ failureTable) := by
  have hv : ValidatePaymentRequest (⟨"sub_1", 10, "basic", "", ""⟩ : PaymentRequest) = none := by
    simp [ValidatePaymentRequest]
  exact ⟨hv, by norm_num,
    C10_failure_returns_response_and_error ⟨0, true, 1 / 2⟩ ⟨1 / 4, 2, "pmt_9", 11⟩
      ⟨"sub_1", 10, "basic", "", ""⟩ hv rfl (by norm_num)⟩

/-- C3: a create workflow with a non-empty user, a recognized plan and a
successful payment charge answers 200, and `GetByID` on the new identifier
immediately afterwards reports found with that user and plan; the amount
charged is `GetPlanPrice` of the plan, whose static lookup is 10.00 for
"basic", 20.00 for "premium" and 0.00 for any other plan. -/
theorem C3_success_persists (pay : PaymentRequest → Except String ClientPaymentResponse)
    (s : Store) (u p : String) (rid now : Nat) (resp : ClientPaymentResponse)
    (hu : u ≠ "") (hp : IsValidPlan p = true)
    (hpay : pay ⟨Store.mkSubID rid, GetPlanPrice p, p, "", ""⟩ = Except.ok resp) :
    Store.GetByID (createSubscriptionV2 pay s u p rid now).store (Store.mkSubID rid) =
      (⟨Store.mkSubID rid, u, p, now, addDateOneYear now⟩, true) ∧
    (createSubscriptionV2 pay s u p rid now).status = 200 ∧
    (createSubscriptionV2 pay s u p rid now).sent =
      some ⟨Store.mkSubID rid, GetPlanPrice p, p, "", ""⟩ ∧
    GetPlanPrice "basic" = 10 ∧ GetPlanPrice "premium" = 20 ∧
    (∀ q : String, q ≠ "basic" → q ≠ "premium" → GetPlanPrice q = 0) := by
  have hrun := createV2_ok_run pay s u p rid now resp hu hp hpay
  simp only [hrun]
  refine ⟨?_, trivial, trivial, rfl, rfl, ?_⟩
  · unfold Store.GetByID
    rw [Store.find_set_self]
  · intro q h1 h2
    simp [GetPlanPrice, h1, h2]

/-- Witness for C3: `Create("u2", "basic")`, payment succeeds. -/
theorem C3_witness :
    "u2" ≠ "" ∧ IsValidPlan "basic" = true ∧
    payAlwaysSucceeds ⟨Store.mkSubID 3, GetPlanPrice "basic", "basic", "", ""⟩ =
      Except.ok ⟨"pmt_1", "completed", ""⟩ ∧
    Store.GetByID (createSubscriptionV2 payAlwaysSucceeds [] "u2" "basic" 3 0).store
        (Store.mkSubID 3) =
      (⟨Store.mkSubID 3, "u2", "basic", 0, addDateOneYear 0⟩, true) :=
  ⟨by decide, rfl, rfl,
   (C3_success_persists payAlwaysSucceeds [] "u2" "basic" 3 0
     ⟨"pmt_1", "completed", ""⟩ (by decide) rfl rfl).1⟩

/-- Counterexample to C1 as stated: the V1 create workflow (cited by the
claim) performs no compensating delete on a failed charge — after a failing
payment the delete is attempted 0 times (not exactly once), `GetByID` on the
workflow's identifier reports found=true (not false), and `Count` has grown
from 0 to 1. -/
theorem C1_counterexample :
    (createSubscriptionV1 payAlwaysFails [] "u1" "premium" 1 0).deleteAttempts = 0 ∧
    Store.GetByID (createSubscriptionV1 payAlwaysFails [] "u1" "premium" 1 0).store
        (Store.mkSubID 1) =
      (⟨Store.mkSubID 1, "u1", "premium", 0, addDateOneYear 0⟩, true) ∧
    Store.Count ([] : Store) = 0 ∧
    Store.Count (createSubscriptionV1 payAlwaysFails [] "u1" "premium" 1 0).store = 1 :=
  ⟨rfl, rfl, rfl, rfl⟩

/-- C1 (amended): for the V2 and V3 create workflows, a failed charge makes
the workflow attempt the compensating delete exactly once, after which
`GetByID` on the workflow's identifier reports found=false; if the generated
identifier was fresh, `Count` is unchanged from before the workflow. The V1
create workflow attempts no compensating delete. -/
theorem C1_amended (pay : PaymentRequest → Except String ClientPaymentResponse)
    (s : Store) (u p : String) (rid now : Nat) (e : String)
    (hu : u ≠ "") (hp : IsValidPlan p = true)
    (hpay : pay ⟨Store.mkSubID rid, GetPlanPrice p, p, "", ""⟩ = Except.error e) :
    (createSubscriptionV2 pay s u p rid now).deleteAttempts = 1 ∧
    (createSubscriptionV3 pay s u p rid now).deleteAttempts = 1 ∧
    Store.GetByID (createSubscriptionV2 pay s u p rid now).store (Store.mkSubID rid) =
      (zeroSubscription, false) ∧
    Store.GetByID (createSubscriptionV3 pay s u p rid now).store (Store.mkSubID rid) =
      (zeroSubscription, false) ∧
    (Store.find s (Store.mkSubID rid) = none →
      Store.Count (createSubscriptionV2 pay s u p rid now).store = Store.Count s ∧
      Store.Count (createSubscriptionV3 pay s u p rid now).store = Store.Count s) ∧
    (createSubscriptionV1 pay s u p rid now).deleteAttempts = 0 := by
  have h2 := createV2_error_run pay s u p rid now e hu hp hpay
  have h3 := createV3_error_run pay s u p rid now e hu hp hpay
  have h1 := createV1_error_run pay s u p rid now e hu hp hpay
  simp only [h1, h2, h3]
  refine ⟨trivial, trivial, ?_, ?_, ?_, trivial⟩
  · unfold Store.GetByID
    rw [Store.find_eraseKey_self]
  · unfold Store.GetByID
    rw [Store.find_eraseKey_self]
  · intro hfresh
    constructor <;>
      rw [Store.eraseKey_set, Store.eraseKey_of_find_none hfresh]

/-- Witness for C1 (amended): a concrete failing charge on the V2 workflow. -/
theorem C1_witness :
    "u1" ≠ "" ∧ IsValidPlan "premium" = true ∧
    payAlwaysFails ⟨Store.mkSubID 2, GetPlanPrice "premium", "premium", "", ""⟩ =
      Except.error "payment failed with status: 400" ∧
    (createSubscriptionV2 payAlwaysFails [] "u1" "premium" 2 0).deleteAttempts = 1 ∧
    Store.GetByID (createSubscriptionV2 payAlwaysFails [] "u1" "premium" 2 0).store
        (Store.mkSubID 2) = (zeroSubscription, false) :=
  ⟨by decide, rfl, rfl,
   (C1_amended payAlwaysFails [] "u1" "premium" 2 0 "payment failed with status: 400"
     (by decide) rfl rfl).1,
   (C1_amended payAlwaysFails [] "u1" "premium" 2 0 "payment failed with status: 400"
     (by decide) rfl rfl).2.2.1⟩

/-- C4: under a request context whose deadline has elapsed, the payment
client aborts the call and surfaces the timeout-flavored error
`failed to send payment request: context deadline exceeded` (for every
request and every wire behaviour), and the create workflow treats this as a
payment failure: it runs the compensating delete exactly once and the record
is not left orphaned (`GetByID` reports found=false). -/
theorem C4_deadline_aborts_and_compensates (transport : Transport)
    (ctx : ReqContext) (s : Store) (u p : String) (rid now : Nat)
    (hu : u ≠ "") (hp : IsValidPlan p = true) (hctx : ctx.expired = true) :
    (∀ req, PaymentService.ProcessPayment ctx transport req =
      Except.error "failed to send payment request: context deadline exceeded") ∧
    (createSubscriptionV2 (PaymentService.ProcessPayment ctx transport) s u p rid now).deleteAttempts = 1 ∧
    (createSubscriptionV2 (PaymentService.ProcessPayment ctx transport) s u p rid now).status = 500 ∧
    Store.GetByID
      (createSubscriptionV2 (PaymentService.ProcessPayment ctx transport) s u p rid now).store
      (Store.mkSubID rid) = (zeroSubscription, false) := by
  have hcall : ∀ req, PaymentService.ProcessPayment ctx transport req =
      Except.error "failed to send payment request: context deadline exceeded" := by
    intro req
    unfold PaymentService.ProcessPayment clientDo
    rw [hctx]
    simp
  have hrun := createV2_error_run (PaymentService.ProcessPayment ctx transport)
    s u p rid now _ hu hp (hcall _)
  refine ⟨hcall, ?_, ?_, ?_⟩ <;> simp only [hrun]
  · unfold Store.GetByID
    rw [Store.find_eraseKey_self]

/-- Witness for C4: expired context over an always-succeeding wire. -/
theorem C4_witness :
    "u1" ≠ "" ∧ IsValidPlan "basic" = true ∧ (⟨true⟩ : ReqContext).expired = true ∧
    PaymentService.ProcessPayment ⟨true⟩ okTransport
        ⟨Store.mkSubID 4, GetPlanPrice "basic", "basic", "", ""⟩ =
      Except.error "failed to send payment request: context deadline exceeded" ∧
    (createSubscriptionV2 (PaymentService.ProcessPayment ⟨true⟩ okTransport)
        [] "u1" "basic" 4 0).deleteAttempts = 1 ∧
    Store.GetByID
      (createSubscriptionV2 (PaymentService.ProcessPayment ⟨true⟩ okTransport)
        [] "u1" "basic" 4 0).store (Store.mkSubID 4) = (zeroSubscription, false) :=
  ⟨by decide, rfl, rfl,
   (C4_deadline_aborts_and_compensates okTransport ⟨true⟩ [] "u1" "basic" 4 0
     (by decide) rfl rfl).1 _,
   (C4_deadline_aborts_and_compensates okTransport ⟨true⟩ [] "u1" "basic" 4 0
     (by decide) rfl rfl).2.1,
   (C4_deadline_aborts_and_compensates okTransport ⟨true⟩ [] "u1" "basic" 4 0
     (by decide) rfl rfl).2.2.2⟩

/-- Helper: `Create` histories do not disturb a key none of them generates. -/
theorem find_applyCreates_of_not_mem (calls : List (Nat × String × String × Nat))
    (s : Store) (k : String)
    (h : k ∉ calls.map (fun c => Store.mkSubID c.1)) :
    Store.find (applyCreates s calls) k = Store.find s k := by
  induction calls generalizing s with
  | nil => rfl
  | cons c rest ih =>
    simp only [List.map_cons, List.mem_cons, not_or] at h
    obtain ⟨hne, hrest⟩ := h
    show Store.find (applyCreates (Store.Create s c.1 c.2.1 c.2.2.1 c.2.2.2).1 rest) k =
      Store.find s k
    rw [ih _ hrest]
    exact Store.find_set_ne s _ hne

/-- Counterexample to C2 as stated: two `Create` calls whose injected
`rand.Int` draws coincide produce colliding identifiers, and the second call
silently overwrites the first record — the store then holds 1 entry, not 2. -/
theorem C2_counterexample :
    Store.Count (applyCreates [] [(7, "u1", "basic", 0), (7, "u2", "premium", 0)]) = 1 ∧
    (1 : Nat) ≠ 2 ∧
    Store.find (applyCreates [] [(7, "u1", "basic", 0), (7, "u2", "premium", 0)])
        (Store.mkSubID 7) =
      some ⟨Store.mkSubID 7, "u2", "premium", 0, addDateOneYear 0⟩ :=
  ⟨rfl, by decide, rfl⟩

/-- C2 (amended): for every history of `Create` calls (concurrent calls are
serialized by the store's mutex) whose generated identifiers are pairwise
distinct and fresh for the starting store, the store afterwards holds one
entry per call, each retrievable under its own identifier with the call's
user and plan; and map assignment preserves the store-lifetime invariant
that no two records ever sit under the same key. -/
theorem C2_amended (s : Store) (calls : List (Nat × String × String × Nat))
    (hnodup : (calls.map (fun c => Store.mkSubID c.1)).Nodup)
    (hfresh : ∀ c ∈ calls, Store.find s (Store.mkSubID c.1) = none) :
    Store.Count (applyCreates s calls) = Store.Count s + calls.length ∧
    (Store.wf s → Store.wf (applyCreates s calls)) ∧
    (∀ c ∈ calls, Store.find (applyCreates s calls) (Store.mkSubID c.1) =
      some ⟨Store.mkSubID c.1, c.2.1, c.2.2.1, c.2.2.2, addDateOneYear c.2.2.2⟩) := by
  induction calls generalizing s with
  | nil =>
    refine ⟨by simp [applyCreates, Store.Count], fun h => h, by simp⟩
  | cons c rest ih =>
    simp only [List.map_cons, List.nodup_cons] at hnodup
    obtain ⟨hhead, hnodup'⟩ := hnodup
    have hfresh_head : Store.find s (Store.mkSubID c.1) = none :=
      hfresh c (List.mem_cons_self _ _)
    have hcreate : (Store.Create s c.1 c.2.1 c.2.2.1 c.2.2.2).1 =
        Store.set s (Store.mkSubID c.1)
          ⟨Store.mkSubID c.1, c.2.1, c.2.2.1, c.2.2.2, addDateOneYear c.2.2.2⟩ := rfl
    have hfresh' : ∀ d ∈ rest,
        Store.find (Store.Create s c.1 c.2.1 c.2.2.1 c.2.2.2).1 (Store.mkSubID d.1) = none := by
      intro d hd
      rw [hcreate, Store.find_set_ne]
      · exact hfresh d (List.mem_cons_of_mem _ hd)
      · intro hh
        exact hhead (hh ▸ List.mem_map_of_mem (fun e => Store.mkSubID e.1) hd)
    obtain ⟨ihCount, ihWf, ihFind⟩ := ih _ hnodup' hfresh'
    refine ⟨?_, ?_, ?_⟩
    · show Store.Count (applyCreates (Store.Create s c.1 c.2.1 c.2.2.1 c.2.2.2).1 rest) = _
      rw [ihCount, hcreate, Store.count_set_of_find_none _ hfresh_head]
      simp only [List.length_cons]
      omega
    · intro hwf
      exact ihWf (hcreate ▸ Store.wf_set _ _ hwf)
    · intro d hd
      rcases List.mem_cons.mp hd with hd | hd
      · subst hd
        show Store.find (applyCreates (Store.Create s d.1 d.2.1 d.2.2.1 d.2.2.2).1 rest)
          (Store.mkSubID d.1) = _
        rw [find_applyCreates_of_not_mem rest _ _ hhead, hcreate]
        exact Store.find_set_self s _ _
      · exact ihFind d hd

/-- Witness for C2 (amended): two creates with distinct draws on the empty
store leave two entries, each under its own identifier. -/
theorem C2_witness :
    (([(1, "u1", "basic", 0), (2, "u2", "premium", 0)] :
        List (Nat × String × String × Nat)).map
      (fun c => Store.mkSubID c.1)).Nodup ∧
    Store.Count (applyCreates [] [(1, "u1", "basic", 0), (2, "u2", "premium", 0)]) =
      Store.Count ([] : Store) + 2 := by
  have hnodup : (([(1, "u1", "basic", 0), (2, "u2", "premium", 0)] :
      List (Nat × String × String × Nat)).map
    (fun c => Store.mkSubID c.1)).Nodup := by decide
  have hfresh : ∀ c ∈ ([(1, "u1", "basic", 0), (2, "u2", "premium", 0)] :
      List (Nat × String × String × Nat)),
      Store.find [] (Store.mkSubID c.1) = none := by
    intro c _
    rfl
  exact ⟨hnodup,
    (C2_amended [] [(1, "u1", "basic", 0), (2, "u2", "premium", 0)] hnodup hfresh).1⟩

end ObsWorkshop
